import Mathlib

/-!
Verification of the cross-device-sync-server core
(packages/cross-device-sync-server/src/index.ts).

The development shallowly embeds the server's configuration resolver
(`readEnv`), its HTTP front door (`setCorsHeaders` and the request handler
installed by `start`), and — where the TypeScript delegates to the external
`webdav-server` library — models of the authentication gate and of the
storage path resolution, taken from the design document (marked
`Modelled from the spec:` in their doc comments).

JavaScript semantics used by the source are embedded explicitly:
`String.prototype.trim` as `jsTrim`, the `Number(string)` conversion as
`jsToNumber` (exact rational arithmetic; float64 rounding is not modelled,
and non-finite results — NaN and ±Infinity — are collapsed to `none`, which
is indistinguishable from NaN under the `Number.isFinite` guard the source
applies), and `x?.trim() || default` as `envOr`.
-/

namespace SyncServer

/-- Decidable equality for `Except`, used to evaluate the resolver on
concrete inputs. -/
instance {ε α : Type} [DecidableEq ε] [DecidableEq α] : DecidableEq (Except ε α) := fun a b =>
  match a, b with
  | .ok x, .ok y =>
    if h : x = y then isTrue (congrArg Except.ok h)
    else isFalse (fun hc => h (Except.ok.inj hc))
  | .error x, .error y =>
    if h : x = y then isTrue (congrArg Except.error h)
    else isFalse (fun hc => h (Except.error.inj hc))
  | .ok _, .error _ => isFalse (fun hc => Except.noConfusion hc)
  | .error _, .ok _ => isFalse (fun hc => Except.noConfusion hc)

/-! ## JavaScript string primitives -/

/-- The character class treated as whitespace by JavaScript
(`String.prototype.trim` and `StringToNumber`): WhiteSpace and
LineTerminator code points. -/
def jsWhitespaceChar (c : Char) : Bool :=
  let n := c.toNat
  (9 ≤ n && n ≤ 13) || n = 32 || n = 160 || n = 0x1680 ||
    (0x2000 ≤ n && n ≤ 0x200A) || n = 0x2028 || n = 0x2029 ||
    n = 0x202F || n = 0x205F || n = 0x3000 || n = 0xFEFF

/-- Strip leading and trailing JS whitespace from a character list. -/
def jsTrimList (l : List Char) : List Char :=
  ((l.dropWhile jsWhitespaceChar).reverse.dropWhile jsWhitespaceChar).reverse

/-- Embedding of JavaScript `String.prototype.trim`. -/
def jsTrim (s : String) : String :=
  ⟨jsTrimList s.data⟩

/-- Embedding of the JavaScript idiom `v?.trim() || d`: an absent value, or a
value that trims to the empty string (falsy), yields the default `d`;
otherwise the trimmed value. -/
def envOr (v : Option String) (d : String) : String :=
  match v with
  | none => d
  | some s => let t := jsTrim s; if t = "" then d else t

/-! ## JavaScript `Number(string)` conversion -/

def isDigitChar (c : Char) : Bool :=
  48 ≤ c.toNat && c.toNat ≤ 57

def isHexDigitChar (c : Char) : Bool :=
  isDigitChar c || (97 ≤ c.toNat && c.toNat ≤ 102) || (65 ≤ c.toNat && c.toNat ≤ 70)

def isOctDigitChar (c : Char) : Bool :=
  48 ≤ c.toNat && c.toNat ≤ 55

def isBinDigitChar (c : Char) : Bool :=
  c.toNat = 48 || c.toNat = 49

def digitVal (c : Char) : ℕ :=
  if 97 ≤ c.toNat then c.toNat - 87
  else if 65 ≤ c.toNat then c.toNat - 55
  else c.toNat - 48

/-- Value of a digit string in radix `r` (most significant digit first). -/
def radixDigitsVal (r : ℕ) (l : List Char) : ℕ :=
  l.foldl (fun a c => r * a + digitVal c) 0

/-- Parse the exponent suffix of a decimal numeric string
(empty, or `e`/`E` followed by an optionally signed digit string). -/
def parseExponent : List Char → Option ℤ
  | [] => some 0
  | c :: rest =>
    if c = 'e' ∨ c = 'E' then
      match rest with
      | '+' :: ds =>
        if ds ≠ [] ∧ ds.all isDigitChar then some (radixDigitsVal 10 ds) else none
      | '-' :: ds =>
        if ds ≠ [] ∧ ds.all isDigitChar then some (-(radixDigitsVal 10 ds : ℤ)) else none
      | ds =>
        if ds ≠ [] ∧ ds.all isDigitChar then some (radixDigitsVal 10 ds) else none
    else none

/-- A parsed numeric literal in scaled-integer form: the denoted value is
`mant * 10 ^ (exp - scale)`. Keeping the parse result in integers lets
concrete runs be settled by `decide`; the rational value is taken only at
the boundary (`JsNumber.toRat`). -/
structure JsNumber where
  mant : ℤ
  scale : ℕ
  exp : ℤ
deriving DecidableEq

/-- The rational value denoted by a parsed numeric literal. -/
def JsNumber.toRat (x : JsNumber) : ℚ :=
  (x.mant : ℚ) * (10 : ℚ) ^ (x.exp - (x.scale : ℤ))

/-- Parse an unsigned decimal literal (`digits [. digits] [exp]` or
`. digits [exp]`), exactly consuming the input; `none` is NaN. -/
def parseUnsignedDec (cs : List Char) : Option JsNumber :=
  let intPart := cs.takeWhile isDigitChar
  let rest1 := cs.dropWhile isDigitChar
  match rest1 with
  | '.' :: rest2 =>
    let frac := rest2.takeWhile isDigitChar
    let rest3 := rest2.dropWhile isDigitChar
    if intPart = [] ∧ frac = [] then none
    else
      match parseExponent rest3 with
      | none => none
      | some e => some ⟨(radixDigitsVal 10 (intPart ++ frac) : ℤ), frac.length, e⟩
  | _ =>
    if intPart = [] then none
    else
      match parseExponent rest1 with
      | none => none
      | some e => some ⟨(radixDigitsVal 10 intPart : ℤ), 0, e⟩

/-- Parse an unsigned decimal literal or `Infinity`. `Infinity` is a
non-finite result, collapsed to `none` (see module doc). -/
def parseUnsignedOrInf (cs : List Char) : Option JsNumber :=
  if cs = "Infinity".data then none else parseUnsignedDec cs

/-- Parse an optionally signed decimal literal. -/
def parseSignedDec : List Char → Option JsNumber
  | '+' :: rest => parseUnsignedOrInf rest
  | '-' :: rest => (parseUnsignedOrInf rest).map (fun x => ⟨-x.mant, x.scale, x.exp⟩)
  | cs => parseUnsignedOrInf cs

/-- Parse a `StrNumericLiteral`: a hex/octal/binary integer literal
(no sign allowed) or a signed decimal literal. -/
def parseStrNumeric (cs : List Char) : Option JsNumber :=
  match cs with
  | '0' :: x :: rest =>
    if x = 'x' ∨ x = 'X' then
      if rest ≠ [] ∧ rest.all isHexDigitChar then some ⟨(radixDigitsVal 16 rest : ℤ), 0, 0⟩
      else none
    else if x = 'o' ∨ x = 'O' then
      if rest ≠ [] ∧ rest.all isOctDigitChar then some ⟨(radixDigitsVal 8 rest : ℤ), 0, 0⟩
      else none
    else if x = 'b' ∨ x = 'B' then
      if rest ≠ [] ∧ rest.all isBinDigitChar then some ⟨(radixDigitsVal 2 rest : ℤ), 0, 0⟩
      else none
    else parseSignedDec cs
  | cs => parseSignedDec cs

/-- Parse the full numeric string (JS `StringToNumber`): surrounding
whitespace is ignored and an all-whitespace string denotes `0`. -/
def parseJsNumber (s : String) : Option JsNumber :=
  let t := jsTrimList s.data
  if t = [] then some ⟨0, 0, 0⟩ else parseStrNumeric t

/-- Embedding of JavaScript `Number(s)` for strings, with exact rational
arithmetic. `some q` is a finite result `q`; `none` covers NaN and
±Infinity, which the source rejects identically via `Number.isFinite`. -/
def jsToNumber (s : String) : Option ℚ :=
  (parseJsNumber s).map JsNumber.toRat

/-! ## Configuration resolver (`readEnv`, index.ts lines 16–44) -/

/-- The raw environment input: each variable either absent or a string,
mirroring `process.env.X : string | undefined`. -/
structure RawEnv where
  HOST : Option String := none
  PORT : Option String := none
  DATA_DIR : Option String := none
  USERNAME : Option String := none
  PASSWORD : Option String := none
  REALM : Option String := none
deriving DecidableEq

/-- The resolved configuration, mirroring `type Env` of the source.
`PORT` holds the finite numeric value `Number(portRaw)` produced; note the
source stores a JS number, not necessarily an integer. -/
structure Env where
  HOST : String
  PORT : ℚ
  DATA_DIR : String
  USERNAME : String
  PASSWORD : String
  REALM : String
deriving DecidableEq

/-- The failures `readEnv` can throw. -/
inductive ConfigError where
  | invalidPort : String → ConfigError
  | usernameEmpty : ConfigError
  | passwordEmpty : ConfigError
deriving DecidableEq

/-- Embedding of Node's `path.resolve(cwd, rel)` for an already-normalized
absolute `cwd` and a plain relative segment `rel`. -/
def resolveFromCwd (cwd rel : String) : String :=
  if cwd.data.getLast? = some '/' then cwd ++ rel else cwd ++ "/" ++ rel

/-- Whether a POSIX path string is absolute. -/
def isAbsolutePath (s : String) : Bool :=
  s.data.head? = some '/'

/-- Embedding of `readEnv` (index.ts lines 16–44). `cwd` stands for
`process.cwd()`. The defaulting, the port parse and the three validation
branches follow the source in order. -/
def readEnv (cwd : String) (e : RawEnv) : Except ConfigError Env :=
  let host := envOr e.HOST "0.0.0.0"
  let portRaw := envOr e.PORT "2345"
  let portNum := jsToNumber portRaw
  let dataDir := envOr e.DATA_DIR (resolveFromCwd cwd "data")
  let username := envOr e.USERNAME "admin"
  let password := envOr e.PASSWORD "admin"
  let realm := envOr e.REALM "Super Productivity Sync"
  match portNum with
  | none => .error (.invalidPort portRaw)
  | some port =>
    if port ≤ 0 ∨ 65535 < port then .error (.invalidPort portRaw)
    else if username = "" then .error .usernameEmpty
    else if password = "" then .error .passwordEmpty
    else .ok ⟨host, port, dataDir, username, password, realm⟩

/-- The weak-credentials startup warning predicate (index.ts lines 170–175):
the source warns exactly when the resolved `PASSWORD` is one of the two
known-weak defaults; the username is not consulted. -/
def startupWarnsWeak (env : Env) : Bool :=
  env.PASSWORD = "admin" || env.PASSWORD = "change-me"

/-! ## HTTP front door (index.ts lines 46–95 and 134–151) -/

/-- HTTP Basic credentials, already base64-decoded into user and secret. -/
structure Credentials where
  user : String
  pass : String
deriving DecidableEq

/-- The parts of an inbound request the front door and the authentication
gate consult: `req.method`, `req.url` (the raw request target, including
any query string, as Node exposes it) and the `Origin` header; the Basic
credentials of the `Authorization` header, already decoded, or `none` when
the header is absent or not Basic. -/
structure Request where
  method : String
  url : String
  origin : Option String := none
  authorization : Option Credentials := none
deriving DecidableEq

/-- A response in construction: Node's `ServerResponse` restricted to the
fields the server touches (`statusCode`, the header map, the body written
by `end`). -/
structure Response where
  statusCode : ℕ
  headers : List (String × String)
  body : String
deriving DecidableEq

/-- `res.setHeader(k, v)`: sets `k` to `v`, replacing any earlier value. -/
def setHeader (h : List (String × String)) (k v : String) : List (String × String) :=
  (k, v) :: h.filter (fun p => p.1 ≠ k)

/-- Header lookup on the response being built. -/
def findHeader : List (String × String) → String → Option String
  | [], _ => none
  | (k, v) :: rest, key => if k = key then some v else findHeader rest key

/-- The reflected CORS origin (index.ts lines 47–48): the request's
`Origin` header when present and non-empty, else the wildcard. -/
def reflectOrigin : Option String → String
  | some o => if o.length ≠ 0 then o else "*"
  | none => "*"

/-- Embedding of `setCorsHeaders` (index.ts lines 46–95): the eight
`setHeader` calls, in source order, applied to the header map `h`. -/
def setCorsHeaders (origin : Option String) (h : List (String × String)) :
    List (String × String) :=
  let allowOrigin := reflectOrigin origin
  let h1 := setHeader h "Access-Control-Allow-Origin" allowOrigin
  let h2 := setHeader h1 "Vary" "Origin"
  let h3 := setHeader h2 "Access-Control-Allow-Credentials" "true"
  let h4 := setHeader h3 "X-Content-Type-Options" "nosniff"
  let h5 := setHeader h4 "Referrer-Policy" "no-referrer"
  let h6 := setHeader h5 "Access-Control-Allow-Methods"
    (String.intercalate ", "
      ["GET", "HEAD", "POST", "PUT", "DELETE", "OPTIONS", "PROPFIND", "PROPPATCH",
        "MKCOL", "COPY", "MOVE", "LOCK", "UNLOCK"])
  let h7 := setHeader h6 "Access-Control-Allow-Headers"
    (String.intercalate ", "
      ["authorization", "content-type", "depth", "destination", "overwrite", "if",
        "if-match", "if-none-match", "range", "accept", "user-agent"])
  setHeader h7 "Access-Control-Expose-Headers"
    (String.intercalate ", " ["etag", "content-length", "content-type", "date", "last-modified"])

/-- Where a request ends up after the front door's three-way branch:
answered directly (preflight or health check), or handed to the WebDAV
Protocol Engine (`wServer.executeRequest`) together with the response
state prepared so far. -/
inductive HandlerResult where
  | direct : Response → HandlerResult
  | engine : Response → HandlerResult
deriving DecidableEq

/-- Embedding of the request handler `start` installs (index.ts lines
134–151): CORS headers first, then the OPTIONS branch, then the exact-URL
health branch, else WebDAV dispatch. Node's fresh response starts with
status 200 and empty body. -/
def handle (req : Request) : HandlerResult :=
  let res : Response := { statusCode := 200, headers := setCorsHeaders req.origin [], body := "" }
  if req.method = "OPTIONS" then
    .direct { res with statusCode := 204, body := "" }
  else if req.url = "/health" then
    .direct
      { res with
        statusCode := 200
        headers := setHeader res.headers "Content-Type" "text/plain; charset=utf-8"
        body := "ok" }
  else
    .engine res

/-- The response carried by a handler result (for the `engine` case, the
response state handed to the Protocol Engine). -/
def HandlerResult.response : HandlerResult → Response
  | .direct r => r
  | .engine r => r

/-- Whether the front door forwarded the request to the Protocol Engine. -/
def HandlerResult.reachesEngine : HandlerResult → Bool
  | .direct _ => false
  | .engine _ => true

/-! ## Protocol Engine authentication gate

Modelled from the spec: the WebDAV authentication is performed by the
external `webdav-server` library (`HTTPBasicAuthentication` with the
`SimpleUserManager` holding the single configured Principal, index.ts
lines 113–124), whose code is not part of this repository. Per the design
document (§4.3, §6): a request without valid Basic credentials receives
`401 Unauthorized` with a `WWW-Authenticate: Basic realm="<realm>"`
challenge before any Storage Backend access; with the correct credentials
authentication and authorization succeed and the request proceeds to the
Storage Backend with standard WebDAV semantics. -/

/-- Outcome of a dispatched WebDAV request: the response, and whether the
Storage Backend was reached. -/
structure DispatchResult where
  response : Response
  storageAccessed : Bool
deriving DecidableEq

/-- Modelled from the spec: the `401` rejection the authentication gate
produces — status 401 with the Basic challenge naming the configured
realm, on top of the response state prepared by the front door. -/
def authDenied (cfg : Env) (res : Response) : Response :=
  { res with
    statusCode := 401
    headers := setHeader res.headers "WWW-Authenticate" ("Basic realm=\"" ++ cfg.REALM ++ "\"")
    body := "" }

/-- Modelled from the spec: the Protocol Engine's dispatch of a WebDAV
request. Absent or incorrect credentials are rejected by the
authentication gate before any Storage Backend access; correct
credentials proceed to the engine (represented by a `207 Multi-Status`
success, the PROPFIND success status the repository's tests expect). -/
def webdavDispatch (cfg : Env) (creds : Option Credentials) (res : Response) : DispatchResult :=
  match creds with
  | none => ⟨authDenied cfg res, false⟩
  | some c =>
    if c.user = cfg.USERNAME ∧ c.pass = cfg.PASSWORD then
      ⟨{ res with statusCode := 207 }, true⟩
    else
      ⟨authDenied cfg res, false⟩

/-- The complete per-request behavior: the front door, and — when the
request is forwarded — the (spec-modelled) Protocol Engine dispatch. -/
def serverResponse (cfg : Env) (req : Request) : Response :=
  match handle req with
  | .direct r => r
  | .engine r => (webdavDispatch cfg req.authorization r).response

/-! ## Storage Backend path resolution

Modelled from the spec: the Storage Backend is the external
`webdav-server` library's `PhysicalFileSystem` mounted on the storage
root (index.ts lines 128–132), whose code is not part of this repository.
Per the design document (§4.2): all paths are normalized (resolve `.` and
`..`, collapse slashes) before touching the underlying store, and any
path that normalizes outside the storage root is rejected with
`PathTraversalDenied`. -/

/-- Normalize the segments of a request path against a stack of already
accepted segments (held in reverse): empty segments (collapsed slashes)
and `.` are dropped, `..` pops, and a `..` with nothing left to pop would
escape the root — the path is rejected. -/
def normalizeSegments : List String → List String → Option (List String)
  | [], acc => some acc.reverse
  | s :: rest, acc =>
    if s = "" ∨ s = "." then normalizeSegments rest acc
    else if s = ".." then
      match acc with
      | [] => none
      | _ :: t => normalizeSegments rest t
    else normalizeSegments rest (s :: acc)

/-- Split a character list at `/` separators (the segments of a
slash-separated path, empty segments included). -/
def splitSlashAux : List Char → List Char → List String
  | [], cur => [⟨cur.reverse⟩]
  | c :: rest, cur =>
    if c = '/' then ⟨cur.reverse⟩ :: splitSlashAux rest []
    else splitSlashAux rest (c :: cur)

/-- The slash-separated segments of a path string. -/
def splitSegments (s : String) : List String :=
  splitSlashAux s.data []

/-- Modelled from the spec: resolve a client-supplied resource path
against the storage root. `none` is the `PathTraversalDenied` rejection;
`some q` is the normalized location `q` inside the root. -/
def resolveUnderRoot (root p : String) : Option String :=
  match normalizeSegments (splitSegments p) [] with
  | none => none
  | some [] => some root
  | some segs => some (root ++ "/" ++ String.intercalate "/" segs)

/-- A path segment that survives normalization: not empty, not `.`, not
`..`. -/
def cleanSegment (s : String) : Prop :=
  s ≠ "" ∧ s ≠ "." ∧ s ≠ ".."

/-- Being inside the storage root: the root itself, or the root extended
by a non-empty sequence of clean segments. -/
def UnderRoot (root q : String) : Prop :=
  q = root ∨ ∃ segs : List String, segs ≠ [] ∧ (∀ s ∈ segs, cleanSegment s) ∧
    q = root ++ "/" ++ String.intercalate "/" segs

/-- Storage errors surfaced per request. -/
inductive StorageError where
  | pathTraversalDenied : StorageError
  | notFound : StorageError
deriving DecidableEq

/-- Modelled from the spec: `readDocument` — resolve the path, then read
from the underlying store (a map from absolute locations to contents). -/
def readDocument (root : String) (store : String → Option (List ℕ)) (p : String) :
    Except StorageError (List ℕ) :=
  match resolveUnderRoot root p with
  | none => .error .pathTraversalDenied
  | some q =>
    match store q with
    | none => .error .notFound
    | some bs => .ok bs

/-- Modelled from the spec: `writeDocument` — resolve the path, then
update the underlying store at the resolved location. -/
def writeDocument (root : String) (store : String → Option (List ℕ)) (p : String)
    (bs : List ℕ) : Except StorageError (String → Option (List ℕ)) :=
  match resolveUnderRoot root p with
  | none => .error .pathTraversalDenied
  | some q => .ok (fun r => if r = q then some bs else store r)

/-! ## Shared lemmas -/

theorem envOr_ne_empty {v : Option String} {d : String} (hd : d ≠ "") : envOr v d ≠ "" := by
  cases v with
  | none => exact hd
  | some s =>
    simp only [envOr]
    split
    · exact hd
    · next h => exact h

theorem envOr_admin_ne_empty (v : Option String) : envOr v "admin" ≠ "" :=
  envOr_ne_empty (by decide)

/-- `readEnv` in resolved form: the defaulted fields, with only the port
check able to fail (the credential emptiness branches are dead, since the
defaults are non-empty). -/
theorem readEnv_cases (cwd : String) (e : RawEnv) :
    readEnv cwd e =
      match jsToNumber (envOr e.PORT "2345") with
      | none => .error (.invalidPort (envOr e.PORT "2345"))
      | some port =>
        if port ≤ 0 ∨ 65535 < port then .error (.invalidPort (envOr e.PORT "2345"))
        else .ok ⟨envOr e.HOST "0.0.0.0", port, envOr e.DATA_DIR (resolveFromCwd cwd "data"),
          envOr e.USERNAME "admin", envOr e.PASSWORD "admin",
          envOr e.REALM "Super Productivity Sync"⟩ := by
  simp only [readEnv]
  cases jsToNumber (envOr e.PORT "2345") with
  | none => rfl
  | some port =>
    by_cases hp : port ≤ 0 ∨ 65535 < port
    · simp [hp]
    · simp [hp, envOr_admin_ne_empty]

/-- The fields of a successfully resolved configuration. -/
theorem readEnv_ok_fields {cwd : String} {e : RawEnv} {env : Env}
    (h : readEnv cwd e = .ok env) :
    env.HOST = envOr e.HOST "0.0.0.0" ∧
    env.DATA_DIR = envOr e.DATA_DIR (resolveFromCwd cwd "data") ∧
    env.USERNAME = envOr e.USERNAME "admin" ∧
    env.PASSWORD = envOr e.PASSWORD "admin" ∧
    env.REALM = envOr e.REALM "Super Productivity Sync" := by
  rw [readEnv_cases] at h
  cases hj : jsToNumber (envOr e.PORT "2345") with
  | none => rw [hj] at h; cases h
  | some port =>
    rw [hj] at h
    by_cases hp : port ≤ 0 ∨ 65535 < port
    · simp only [hp, if_true, reduceCtorEq] at h
    · simp only [hp, if_false, Except.ok.injEq] at h
      subst h
      exact ⟨rfl, rfl, rfl, rfl, rfl⟩

theorem isAbsolutePath_resolveFromCwd {cwd : String} (rel : String)
    (h : isAbsolutePath cwd = true) : isAbsolutePath (resolveFromCwd cwd rel) = true := by
  obtain ⟨l⟩ := cwd
  simp only [isAbsolutePath, decide_eq_true_eq] at h
  cases l with
  | nil => cases h
  | cons c t =>
    simp only [List.head?, Option.some.injEq] at h
    subst h
    simp only [resolveFromCwd, isAbsolutePath, decide_eq_true_eq]
    split <;> simp [String.data_append, List.head?]

/-- A parse of an integer literal yields the corresponding integer as a
rational. -/
theorem jsToNumber_intLiteral {s : String} {n : ℤ} (h : parseJsNumber s = some ⟨n, 0, 0⟩) :
    jsToNumber s = some (n : ℚ) := by
  simp [jsToNumber, h, JsNumber.toRat]

/-- The resolver on a fully defaulted environment with working directory
`/app`. -/
theorem readEnv_default_app :
    readEnv "/app" {} =
      .ok ⟨"0.0.0.0", 2345, "/app/data", "admin", "admin", "Super Productivity Sync"⟩ := by
  rw [readEnv_cases]
  rw [show envOr ({} : RawEnv).PORT "2345" = "2345" from rfl,
    jsToNumber_intLiteral (n := 2345) (by decide)]
  norm_num
  exact ⟨rfl, by decide, rfl, rfl⟩

/-- Normalization only outputs clean segments: no empty segment, no `.`,
no `..` survives. -/
theorem normalizeSegments_clean :
    ∀ (l acc out : List String), (∀ s ∈ acc, cleanSegment s) →
      normalizeSegments l acc = some out → ∀ s ∈ out, cleanSegment s := by
  intro l
  induction l with
  | nil =>
    intro acc out hacc h s hs
    simp only [normalizeSegments, Option.some.injEq] at h
    subst h
    exact hacc s (List.mem_reverse.mp hs)
  | cons a rest ih =>
    intro acc out hacc h s hs
    simp only [normalizeSegments] at h
    by_cases h1 : a = "" ∨ a = "."
    · rw [if_pos h1] at h
      exact ih acc out hacc h s hs
    · rw [if_neg h1] at h
      by_cases h2 : a = ".."
      · rw [if_pos h2] at h
        cases acc with
        | nil => cases h
        | cons b t => exact ih t out (fun x hx => hacc x (List.mem_cons_of_mem _ hx)) h s hs
      · rw [if_neg h2] at h
        refine ih (a :: acc) out ?_ h s hs
        intro x hx
        rcases List.mem_cons.mp hx with rfl | hx
        · push_neg at h1
          exact ⟨h1.1, h1.2, h2⟩
        · exact hacc x hx

/-- Every location the resolver accepts lies inside the storage root. -/
theorem resolveUnderRoot_under {root p q : String}
    (h : resolveUnderRoot root p = some q) : UnderRoot root q := by
  unfold resolveUnderRoot at h
  cases hn : normalizeSegments (splitSegments p) [] with
  | none => rw [hn] at h; cases h
  | some segs =>
    rw [hn] at h
    cases segs with
    | nil =>
      cases h
      exact Or.inl rfl
    | cons a t =>
      cases h
      refine Or.inr ⟨a :: t, by simp, ?_, rfl⟩
      exact normalizeSegments_clean _ _ _ (by simp) hn

/-! ## Claims -/

/-- C1: every request path is normalized (resolving `.` and `..`,
collapsing slashes) before the store is touched; a path that normalizes
outside the storage root is rejected with `PathTraversalDenied`, and
neither reads nor writes ever touch a location outside the root. The
final conjunct checks the design document's own example. Storage is
modelled from the spec (see `resolveUnderRoot`), since the
`PhysicalFileSystem` it describes lives in the external `webdav-server`
dependency. -/
theorem C1_storage_path_confinement :
    (∀ root p q, resolveUnderRoot root p = some q → UnderRoot root q) ∧
    (∀ root store p, resolveUnderRoot root p = none →
      readDocument root store p = .error .pathTraversalDenied ∧
      ∀ bs, writeDocument root store p bs = .error .pathTraversalDenied) ∧
    (∀ root store p bs newStore, writeDocument root store p bs = .ok newStore →
      ∀ q, newStore q ≠ store q → UnderRoot root q) ∧
    resolveUnderRoot "/data" "/../../etc/passwd" = none := by
  refine ⟨fun root p q h => resolveUnderRoot_under h, ?_, ?_, by decide⟩
  · intro root store p h
    exact ⟨by simp [readDocument, h], fun bs => by simp [writeDocument, h]⟩
  · intro root store p bs newStore h q hq
    unfold writeDocument at h
    cases hr : resolveUnderRoot root p with
    | none => rw [hr] at h; cases h
    | some loc =>
      rw [hr] at h
      cases h
      by_cases hq2 : q = loc
      · subst hq2
        exact resolveUnderRoot_under hr
      · simp [hq2] at hq

/-- C1 witness: a concrete resolved path lies inside the root. -/
theorem C1_storage_path_confinement_witness :
    UnderRoot "/data" "/data/sp-sync/main.json" :=
  C1_storage_path_confinement.1 "/data" "/sp-sync/main.json" "/data/sp-sync/main.json"
    (by decide)

/-- C2: every WebDAV request (neither OPTIONS nor the health URL) is
forwarded to the engine; absent or incorrect Basic credentials yield a
`401` carrying `WWW-Authenticate: Basic realm="<configured realm>"`
before any Storage Backend access, while the correct credentials for the
configured Principal pass the gate (the engine answers, storage is
reached, no 401). The gate itself is modelled from the spec (see
`webdavDispatch`); the forwarding is proved from the source handler. -/
theorem C2_basic_auth_gate :
    ∀ (cfg : Env) (req : Request),
      req.method ≠ "OPTIONS" → req.url ≠ "/health" →
      (handle req = .engine ⟨200, setCorsHeaders req.origin [], ""⟩) ∧
      (req.authorization = none →
        (serverResponse cfg req).statusCode = 401 ∧
        findHeader (serverResponse cfg req).headers "WWW-Authenticate" =
          some ("Basic realm=\"" ++ cfg.REALM ++ "\"") ∧
        (webdavDispatch cfg req.authorization (handle req).response).storageAccessed = false) ∧
      (∀ c, req.authorization = some c → (c.user ≠ cfg.USERNAME ∨ c.pass ≠ cfg.PASSWORD) →
        (serverResponse cfg req).statusCode = 401 ∧
        findHeader (serverResponse cfg req).headers "WWW-Authenticate" =
          some ("Basic realm=\"" ++ cfg.REALM ++ "\"") ∧
        (webdavDispatch cfg req.authorization (handle req).response).storageAccessed = false) ∧
      (∀ c, req.authorization = some c → c.user = cfg.USERNAME → c.pass = cfg.PASSWORD →
        (serverResponse cfg req).statusCode = 207 ∧
        (webdavDispatch cfg req.authorization (handle req).response).storageAccessed = true) := by
  intro cfg req hm hu
  refine ⟨by simp [handle, hm, hu], ?_, ?_, ?_⟩
  · intro hc
    simp [handle, serverResponse, hm, hu, hc, webdavDispatch, authDenied,
      HandlerResult.response, setHeader, findHeader]
  · intro c hc hbad
    have hne : ¬(c.user = cfg.USERNAME ∧ c.pass = cfg.PASSWORD) := by
      rcases hbad with h | h
      · exact fun hand => h hand.1
      · exact fun hand => h hand.2
    simp [handle, serverResponse, hm, hu, hc, hne, webdavDispatch, authDenied,
      HandlerResult.response, setHeader, findHeader]
  · intro c hc h1 h2
    simp [handle, serverResponse, hm, hu, hc, h1, h2, webdavDispatch,
      HandlerResult.response]

/-- C2 witness: a concrete PROPFIND without credentials is rejected with
the challenge, with wrong credentials is rejected, and with the correct
credentials passes the gate. -/
theorem C2_basic_auth_gate_witness :
    ((serverResponse ⟨"0.0.0.0", 2345, "/data", "admin", "pw-8Q", "Sync Realm"⟩
        ⟨"PROPFIND", "/", none, none⟩).statusCode = 401 ∧
      findHeader (serverResponse ⟨"0.0.0.0", 2345, "/data", "admin", "pw-8Q", "Sync Realm"⟩
        ⟨"PROPFIND", "/", none, none⟩).headers "WWW-Authenticate" =
        some ("Basic realm=\"" ++ "Sync Realm" ++ "\"") ∧
      (webdavDispatch ⟨"0.0.0.0", 2345, "/data", "admin", "pw-8Q", "Sync Realm"⟩ none
        (handle ⟨"PROPFIND", "/", none, none⟩).response).storageAccessed = false) ∧
    ((serverResponse ⟨"0.0.0.0", 2345, "/data", "admin", "pw-8Q", "Sync Realm"⟩
        ⟨"PROPFIND", "/", none, some ⟨"admin", "wrong"⟩⟩).statusCode = 401) ∧
    ((serverResponse ⟨"0.0.0.0", 2345, "/data", "admin", "pw-8Q", "Sync Realm"⟩
        ⟨"PROPFIND", "/", none, some ⟨"admin", "pw-8Q"⟩⟩).statusCode = 207 ∧
      (webdavDispatch ⟨"0.0.0.0", 2345, "/data", "admin", "pw-8Q", "Sync Realm"⟩
        (some ⟨"admin", "pw-8Q"⟩)
        (handle ⟨"PROPFIND", "/", none, some ⟨"admin", "pw-8Q"⟩⟩).response).storageAccessed =
        true) :=
  ⟨(C2_basic_auth_gate _ _ (by decide) (by decide)).2.1 rfl,
   ((C2_basic_auth_gate _ ⟨"PROPFIND", "/", none, some ⟨"admin", "wrong"⟩⟩
      (by decide) (by decide)).2.2.1 ⟨"admin", "wrong"⟩ rfl (Or.inr (by decide))).1,
   (C2_basic_auth_gate _ _ (by decide) (by decide)).2.2.2 ⟨"admin", "pw-8Q"⟩ rfl rfl rfl⟩

/-- C3: a GET for exactly `/health` is answered directly with `200` and
body `ok`, carries the reflected CORS origin header, and never reaches
the Protocol Engine (hence no Storage Backend access). The handler is a
pure function of the request, so the answer is the same regardless of
credentials (the `authorization` field is quantified and never consulted)
and of any prior WebDAV writes. -/
theorem C3_health_endpoint :
    ∀ (origin : Option String) (auth : Option Credentials),
      handle ⟨"GET", "/health", origin, auth⟩ =
        .direct ⟨200,
          setHeader (setCorsHeaders origin []) "Content-Type" "text/plain; charset=utf-8",
          "ok"⟩ ∧
      (handle ⟨"GET", "/health", origin, auth⟩).reachesEngine = false ∧
      (handle ⟨"GET", "/health", origin, auth⟩).response.body = "ok" ∧
      findHeader (handle ⟨"GET", "/health", origin, auth⟩).response.headers
        "Access-Control-Allow-Origin" = some (reflectOrigin origin) := by
  intro origin auth
  refine ⟨by simp [handle], by simp [handle, HandlerResult.reachesEngine],
    by simp [handle, HandlerResult.response], ?_⟩
  simp [handle, HandlerResult.response, setCorsHeaders, setHeader, findHeader]

/-- C4: any OPTIONS request — on any URL, the health endpoint included,
since this branch is tested first — is answered directly with `204`, an
empty body and the CORS headers, and never reaches the Protocol
Engine. -/
theorem C4_preflight_options :
    ∀ (url : String) (origin : Option String) (auth : Option Credentials),
      handle ⟨"OPTIONS", url, origin, auth⟩ =
        .direct ⟨204, setCorsHeaders origin [], ""⟩ ∧
      (handle ⟨"OPTIONS", url, origin, auth⟩).reachesEngine = false ∧
      (handle ⟨"OPTIONS", url, origin, auth⟩).response.body = "" ∧
      findHeader (handle ⟨"OPTIONS", url, origin, auth⟩).response.headers
        "Access-Control-Allow-Origin" = some (reflectOrigin origin) := by
  intro url origin auth
  refine ⟨by simp [handle], by simp [handle, HandlerResult.reachesEngine],
    by simp [handle, HandlerResult.response], ?_⟩
  simp [handle, HandlerResult.response, setCorsHeaders, setHeader, findHeader]

/-- C5: every response — preflight, health check, and (through the
spec-modelled engine) WebDAV success and 401 alike — carries the five
security/CORS headers, with `Access-Control-Allow-Origin` reflecting a
present non-empty Origin and falling back to the wildcard. -/
theorem C5_cors_headers_every_response :
    ∀ (cfg : Env) (req : Request),
      (findHeader (handle req).response.headers "Access-Control-Allow-Origin" =
          some (reflectOrigin req.origin) ∧
       findHeader (handle req).response.headers "Vary" = some "Origin" ∧
       findHeader (handle req).response.headers "Access-Control-Allow-Credentials" =
          some "true" ∧
       findHeader (handle req).response.headers "X-Content-Type-Options" = some "nosniff" ∧
       findHeader (handle req).response.headers "Referrer-Policy" = some "no-referrer") ∧
      (findHeader (serverResponse cfg req).headers "Access-Control-Allow-Origin" =
          some (reflectOrigin req.origin) ∧
       findHeader (serverResponse cfg req).headers "Vary" = some "Origin" ∧
       findHeader (serverResponse cfg req).headers "Access-Control-Allow-Credentials" =
          some "true" ∧
       findHeader (serverResponse cfg req).headers "X-Content-Type-Options" = some "nosniff" ∧
       findHeader (serverResponse cfg req).headers "Referrer-Policy" = some "no-referrer") := by
  intro cfg req
  by_cases hm : req.method = "OPTIONS"
  · simp [handle, serverResponse, hm, HandlerResult.response, setCorsHeaders, setHeader,
      findHeader]
  · by_cases hu : req.url = "/health"
    · simp [handle, serverResponse, hm, hu, HandlerResult.response, setCorsHeaders, setHeader,
        findHeader]
    · cases hc : req.authorization with
      | none =>
        simp [handle, serverResponse, hm, hu, hc, webdavDispatch, authDenied,
          HandlerResult.response, setCorsHeaders, setHeader, findHeader]
      | some c =>
        by_cases hok : c.user = cfg.USERNAME ∧ c.pass = cfg.PASSWORD
        · simp [handle, serverResponse, hm, hu, hc, hok, webdavDispatch, authDenied,
            HandlerResult.response, setCorsHeaders, setHeader, findHeader]
        · simp [handle, serverResponse, hm, hu, hc, hok, webdavDispatch, authDenied,
            HandlerResult.response, setCorsHeaders, setHeader, findHeader]

/-- C6 counterexample: the claim says the resolver accepts only integer
ports, but `PORT="2.5"` — whose value has denominator 2, so is not an
integer — is accepted and produces a configuration with port 5/2. -/
theorem C6_port_validation_counterexample :
    readEnv "/app" { PORT := some "2.5" } =
      .ok ⟨"0.0.0.0", 5/2, "/app/data", "admin", "admin", "Super Productivity Sync"⟩ ∧
    ((5 : ℚ)/2).den = 2 := by
  constructor
  · rw [readEnv_cases, show envOr (some "2.5") "2345" = "2.5" from by decide]
    have hq : jsToNumber "2.5" = some ((25 : ℚ) * (10 : ℚ) ^ ((0 : ℤ) - (1 : ℕ))) := by
      simp [jsToNumber, show parseJsNumber "2.5" = some ⟨25, 1, 0⟩ from by decide,
        JsNumber.toRat]
    rw [hq]
    norm_num
    exact ⟨rfl, by decide, rfl, rfl⟩
  · norm_num

/-- C6 (amended): the resolver accepts the port exactly when the port
string converts to a finite number in `(0, 65535]` (non-integer values
included), and every failure it reports is `InvalidPort` carrying the
offending port string. -/
theorem C6_port_validation_amended :
    ∀ (cwd : String) (e : RawEnv),
      ((∃ env : Env, readEnv cwd e = .ok env) ↔
        (∃ q : ℚ, jsToNumber (envOr e.PORT "2345") = some q ∧ 0 < q ∧ q ≤ 65535)) ∧
      (∀ err, readEnv cwd e = .error err → err = .invalidPort (envOr e.PORT "2345")) := by
  intro cwd e
  rw [readEnv_cases]
  cases hj : jsToNumber (envOr e.PORT "2345") with
  | none => simp
  | some port =>
    by_cases hp : port ≤ 0 ∨ 65535 < port
    · simp only [hp, if_true]
      constructor
      · simp only [reduceCtorEq, exists_false, false_iff]
        rintro ⟨q, hq, h0, h65⟩
        cases hq
        rcases hp with h | h
        · exact absurd h0 (not_lt.mpr h)
        · exact absurd h65 (not_le.mpr h)
      · intro err herr
        cases herr
        rfl
    · simp only [hp, if_false]
      push_neg at hp
      refine ⟨⟨fun _ => ⟨port, rfl, hp.1, hp.2⟩, fun _ => ⟨_, rfl⟩⟩, ?_⟩
      intro err herr
      cases herr

/-- C6 witness: a NaN port string fails, and the reported error is
`InvalidPort` with that string. -/
theorem C6_port_validation_witness :
    ConfigError.invalidPort "abc" = ConfigError.invalidPort (envOr (some "abc") "2345") := by
  refine (C6_port_validation_amended "/app" { PORT := some "abc" }).2 _ ?_
  rw [readEnv_cases, show envOr (some "abc") "2345" = "abc" from by decide,
    show jsToNumber "abc" = none from by
      simp [jsToNumber, show parseJsNumber "abc" = none from by decide]]

/-- C7 counterexample: the claim says a supplied storage root is resolved
to an absolute path, but `DATA_DIR="data"` is accepted verbatim and the
resulting storage root is relative. -/
theorem C7_data_dir_counterexample :
    readEnv "/app" { DATA_DIR := some "data" } =
      .ok ⟨"0.0.0.0", 2345, "data", "admin", "admin", "Super Productivity Sync"⟩ ∧
    isAbsolutePath "data" = false := by
  constructor
  · rw [readEnv_cases,
      show envOr ({ DATA_DIR := some "data" } : RawEnv).PORT "2345" = "2345" from rfl,
      jsToNumber_intLiteral (n := 2345) (by decide)]
    norm_num
    exact ⟨rfl, by decide, rfl, rfl⟩
  · decide

/-- C7 (amended): when the storage-root variable is unset or trims to the
empty string, the storage root is the process-relative `data` directory
resolved against the working directory (absolute whenever the working
directory is); when it is set to a non-trivial value, that value is used
verbatim after trimming, without resolution to an absolute path. -/
theorem C7_data_dir_resolution_amended :
    ∀ (cwd : String) (e : RawEnv) (env : Env), readEnv cwd e = .ok env →
      (e.DATA_DIR = none → env.DATA_DIR = resolveFromCwd cwd "data") ∧
      (∀ s, e.DATA_DIR = some s → jsTrim s = "" → env.DATA_DIR = resolveFromCwd cwd "data") ∧
      (∀ s, e.DATA_DIR = some s → jsTrim s ≠ "" → env.DATA_DIR = jsTrim s) ∧
      (isAbsolutePath cwd = true →
        (e.DATA_DIR = none ∨ ∃ s, e.DATA_DIR = some s ∧ jsTrim s = "") →
        isAbsolutePath env.DATA_DIR = true) := by
  intro cwd e env h
  have hd := (readEnv_ok_fields h).2.1
  refine ⟨?_, ?_, ?_, ?_⟩
  · intro hn
    rw [hd, hn]
    rfl
  · intro s hs ht
    rw [hd, hs]
    simp [envOr, ht]
  · intro s hs ht
    rw [hd, hs]
    simp [envOr, ht]
  · rintro habs (hn | ⟨s, hs, ht⟩)
    · rw [hd, hn]
      exact isAbsolutePath_resolveFromCwd _ habs
    · rw [hd, hs]
      simp only [envOr, ht, if_true]
      exact isAbsolutePath_resolveFromCwd _ habs

/-- C7 witness: with the storage-root variable unset and working
directory `/app`, the storage root is the resolved default and is
absolute. -/
theorem C7_data_dir_witness :
    ("/app/data" : String) = resolveFromCwd "/app" "data" ∧
    isAbsolutePath "/app/data" = true :=
  ⟨(C7_data_dir_resolution_amended "/app" {} _ readEnv_default_app).1 rfl,
   (C7_data_dir_resolution_amended "/app" {} _ readEnv_default_app).2.2.2
     (by decide) (Or.inl rfl)⟩

/-- C8 counterexample: the claim says a weak-default username alone
triggers the warning, but with `USERNAME="admin"` (the weak default) and
a strong password the startup warning predicate is false. -/
theorem C8_weak_credentials_counterexample :
    readEnv "/app" { USERNAME := some "admin", PASSWORD := some "s3cret-xK9" } =
      .ok ⟨"0.0.0.0", 2345, "/app/data", "admin", "s3cret-xK9", "Super Productivity Sync"⟩ ∧
    startupWarnsWeak
      ⟨"0.0.0.0", 2345, "/app/data", "admin", "s3cret-xK9", "Super Productivity Sync"⟩ =
      false := by
  refine ⟨?_, by decide⟩
  rw [readEnv_cases,
    show envOr ({ USERNAME := some "admin", PASSWORD := some "s3cret-xK9" } : RawEnv).PORT
      "2345" = "2345" from rfl,
    jsToNumber_intLiteral (n := 2345) (by decide)]
  norm_num
  exact ⟨rfl, by decide, by decide, by decide, rfl⟩

/-- C8 (amended): the startup warning fires exactly when the resolved
secret is one of the two known-weak defaults (`admin`, including by
defaulting, or `change-me`); the username — weak default or not — is
never consulted. -/
theorem C8_weak_credentials_warning_amended :
    ∀ (cwd : String) (e : RawEnv) (env : Env), readEnv cwd e = .ok env →
      (startupWarnsWeak env = true ↔
        (envOr e.PASSWORD "admin" = "admin" ∨ envOr e.PASSWORD "admin" = "change-me")) ∧
      (e.USERNAME = some "admin" → envOr e.PASSWORD "admin" ≠ "admin" →
        envOr e.PASSWORD "admin" ≠ "change-me" → startupWarnsWeak env = false) := by
  intro cwd e env h
  have hp := (readEnv_ok_fields h).2.2.2.1
  constructor
  · simp [startupWarnsWeak, hp]
  · intro _ h1 h2
    simp [startupWarnsWeak, hp, h1, h2]

/-- C8 witness: with the password unset (so it defaults to the weak
placeholder) the warning fires. -/
theorem C8_weak_credentials_witness :
    startupWarnsWeak ⟨"0.0.0.0", 2345, "/app/data", "admin", "admin", "Super Productivity Sync"⟩ =
      true :=
  (C8_weak_credentials_warning_amended "/app" {} _ readEnv_default_app).1.mpr (Or.inl rfl)

/-- C9: the health short circuit matches the raw URL exactly and ignores
the method — any non-OPTIONS method on exactly `/health` (PUT and
PROPFIND included) is answered `200`/`ok` without reaching the WebDAV
engine, so no WebDAV resource addressed as `/health` can be created,
read, or deleted — while `/health/` and `/health` with a query string are
forwarded to WebDAV dispatch. -/
theorem C9_health_url_exact_match :
    ∀ (method : String) (origin : Option String) (auth : Option Credentials),
      method ≠ "OPTIONS" →
      (handle ⟨method, "/health", origin, auth⟩ =
        .direct ⟨200,
          setHeader (setCorsHeaders origin []) "Content-Type" "text/plain; charset=utf-8",
          "ok"⟩ ∧
       (handle ⟨method, "/health", origin, auth⟩).reachesEngine = false) ∧
      (handle ⟨method, "/health/", origin, auth⟩).reachesEngine = true ∧
      (handle ⟨method, "/health?probe=1", origin, auth⟩).reachesEngine = true := by
  intro method origin auth hm
  refine ⟨⟨?_, ?_⟩, ?_, ?_⟩ <;>
    simp [handle, hm, HandlerResult.reachesEngine]

/-- C9 witness: a PUT to exactly `/health` is short-circuited, while
`/health/` and a query-string variant reach the engine. -/
theorem C9_health_url_exact_match_witness :
    (handle ⟨"PUT", "/health", none, none⟩ =
      .direct ⟨200,
        setHeader (setCorsHeaders none []) "Content-Type" "text/plain; charset=utf-8",
        "ok"⟩ ∧
     (handle ⟨"PUT", "/health", none, none⟩).reachesEngine = false) ∧
    (handle ⟨"PUT", "/health/", none, none⟩).reachesEngine = true ∧
    (handle ⟨"PUT", "/health?probe=1", none, none⟩).reachesEngine = true :=
  C9_health_url_exact_match "PUT" none none (by decide)

/-- C10: the resolver's explicit `USERNAME must not be empty` and
`PASSWORD must not be empty` branches are unreachable — absent, empty or
whitespace-only credentials fall back to the non-empty default before the
checks run — so the resolver never reports those errors and every
configuration it returns has non-empty username and secret. -/
theorem C10_credential_empty_branches_unreachable :
    ∀ (cwd : String) (e : RawEnv),
      (readEnv cwd e ≠ .error .usernameEmpty ∧ readEnv cwd e ≠ .error .passwordEmpty) ∧
      ∀ env : Env, readEnv cwd e = .ok env → env.USERNAME ≠ "" ∧ env.PASSWORD ≠ "" := by
  intro cwd e
  constructor
  · rw [readEnv_cases]
    cases jsToNumber (envOr e.PORT "2345") with
    | none => exact ⟨by simp, by simp⟩
    | some port =>
      by_cases hp : port ≤ 0 ∨ 65535 < port
      · simp [hp]
      · simp [hp]
  · intro env h
    have hf := readEnv_ok_fields h
    refine ⟨?_, ?_⟩
    · rw [hf.2.2.1]
      exact envOr_admin_ne_empty _
    · rw [hf.2.2.2.1]
      exact envOr_admin_ne_empty _

/-- C10 witness: on the fully defaulted environment the resolver
succeeds and both credentials are non-empty. -/
theorem C10_credential_empty_branches_unreachable_witness :
    ("admin" : String) ≠ "" ∧ ("admin" : String) ≠ "" :=
  (C10_credential_empty_branches_unreachable "/app" {}).2 _ readEnv_default_app

end SyncServer
